import Mathlib

/-!
Shallow embedding of `src/driver/ixsystems/iscsi.py`
(`FreeNASISCSIDriver`, the cinder volume driver for iXsystems/TrueNAS
iSCSI backends).

The driver's own dispatch logic is translated directly from the Python
source.  The collaborators `ix_utils.generate_freenas_volume_name`,
`ix_utils.generate_freenas_snapshot_name`, `common.is_service_project`
and the backend RPCs live outside the provided sources; they are taken
as abstract function parameters (the theorems quantify over them), and
backend side effects are recorded as an explicit trace of calls.
-/

namespace IXsystems

/-- One entry of the list returned by `common.tunable()`:
`{'var': ..., 'enabled': ..., 'value': ...}`. -/
structure Tunable where
  var : String
  enabled : Bool
  value : String
deriving DecidableEq, Repr

/-- Python `str.isnumeric()` restricted to ASCII digit strings (the only
values `int(...)` accepts afterwards): nonempty and all digits. -/
def isNumericStr (s : String) : Bool :=
  !s.data.isEmpty && s.data.all Char.isDigit

/-- Python `int(...)` on a digit string. -/
def digitsToNat (s : String) : Nat :=
  s.data.foldl (fun n c => n * 10 + (c.toNat - 48)) 0

/-- The body of the `for item in tunable:` loop in `check_connection`,
updating the pair `(max_luns, max_ports)`. -/
def tunableStep (acc : Nat × Nat) (item : Tunable) : Nat × Nat :=
  let acc1 :=
    if item.enabled && item.var == "kern.cam.ctl.max_luns"
        && isNumericStr item.value
    then (digitsToNat item.value, acc.2) else acc
  if item.enabled && item.var == "kern.cam.ctl.max_ports"
      && isNumericStr item.value
  then (acc1.1, digitsToNat item.value) else acc1

/-- The `(max_luns, max_ports)` pair after the loop, starting from the
defaults `max_ports, max_luns = 256, 1024`. -/
def lunsPortsOf (tunables : List Tunable) : Nat × Nat :=
  tunables.foldl tunableStep (1024, 256)

/-- The `max_luns` value `check_connection` ends up with. -/
def maxLunsOf (tunables : List Tunable) : Nat :=
  (lunsPortsOf tunables).1

/-- The `max_ports` value `check_connection` ends up with. -/
def maxPortsOf (tunables : List Tunable) : Nat :=
  (lunsPortsOf tunables).2

/-- The value of the last tunable in the list whose name is `varName`,
whose enabled flag is set and whose value string is numeric; `dflt`
when there is none.  (Specification-side description of the loop.) -/
def lastTunable (varName : String) (dflt : Nat) (tunables : List Tunable) : Nat :=
  tunables.foldl
    (fun acc item =>
      if item.enabled && item.var == varName && isNumericStr item.value
      then digitsToNat item.value else acc)
    dflt

/-- `FreeNASISCSIDriver.check_connection`.  `versionPart` is the element
`[1]` of `ix_utils.parse_truenas_version(self.common.system_version())`;
`configLoaded` is `len(cinderapi.CONF.list_all_sections()) > 0`;
`attachedCount` is the count of attached volumes on this backend. -/
def check_connection (versionPart : String) (tunables : List Tunable)
    (configLoaded : Bool) (attachedCount : Nat) : Bool :=
  if versionPart == "12.0" || versionPart == "13.0" then
    let lp := lunsPortsOf tunables
    let attach_max_allow := min lp.1 lp.2
    if configLoaded then
      if attach_max_allow ≤ attachedCount then false else true
    else true
  else true

/-- The record produced by `ix_utils.generate_freenas_volume_name` /
`generate_freenas_snapshot_name` (fields used by the driver:
`name`, `target`, `iqn`). -/
structure FreenasVol where
  name : String
  target : String
  iqn : String
deriving DecidableEq, Repr

/-- The fields of the cinder `volume` argument the driver reads. -/
structure VolumeRec where
  name : String
  id : String
  project_id : String
  display_name : String
  size : Nat
deriving DecidableEq, Repr

/-- The fields of the cinder `snapshot` argument the driver reads. -/
structure SnapRec where
  name : String
  volume_name : String
deriving DecidableEq, Repr

/-- One backend call issued through `self.common` (the Backend Gateway). -/
inductive BCall where
  | provision (name : String) (size : Nat)
  | createTarget (target : String) (name : String)
  | deleteTarget (target : String)
  | deleteStorage (name : String)
  | createSnap (snap : String) (parent : String)
  | deleteSnap (snap : String) (parent : String)
  | cloneFromSnap (newName : String) (snap : String) (parent : String)
  | promote (name : String)
  | extendVol (name : String) (size : Nat)
deriving DecidableEq, Repr

/-- `FreeNASISCSIDriver.create_volume`: resolve the name, then
`common.create_volume(name, size)`, then
`common.create_iscsitarget(target, name)`.  `gvn` is the (absent)
resolver `ix_utils.generate_freenas_volume_name`; `volOk` / `targetOk`
say whether the two backend calls succeed.  Result: the trace of
backend calls attempted, and the propagated error if any. -/
def create_volume (gvn : String → FreenasVol) (volume : VolumeRec)
    (volOk targetOk : Bool) : List BCall × Option String :=
  let fv := gvn volume.name
  if volOk then
    if targetOk then
      ([.provision fv.name volume.size, .createTarget fv.target fv.name], none)
    else
      ([.provision fv.name volume.size, .createTarget fv.target fv.name],
       some "FreeNASApiError")
  else
    ([.provision fv.name volume.size], some "FreeNASApiError")

/-- `c` is in the class `[a-z0-9]`. -/
def isLowerDigit (c : Char) : Bool :=
  c.isLower || c.isDigit

/-- Matcher for a `+`-segment sequence separated by literal dashes: each
predicate must match a nonempty run; since no class contains the dash,
the greedy maximal run is the only candidate, so this deterministic
matcher agrees with Python backtracking `re.match` (prefix semantics:
trailing characters after the last run are ignored). -/
def matchSegs : List (Char → Bool) → List Char → Bool
  | [], _ => true
  | [p], s => !(s.takeWhile p).isEmpty
  | p :: q :: ps, s =>
    !(s.takeWhile p).isEmpty &&
    (match s.dropWhile p with
     | '-' :: rest => matchSegs (q :: ps) rest
     | _ => false)

/-- Python
`re.match(r"image-[a-zA-Z0-9]+-[a-z0-9]+-[a-z0-9]+-[a-z0-9]+-[a-z0-9]+", s)`
as a Bool. -/
def imageCachePat (s : String) : Bool :=
  match s.data with
  | 'i' :: 'm' :: 'a' :: 'g' :: 'e' :: '-' :: rest =>
      matchSegs [Char.isAlphanum, isLowerDigit, isLowerDigit,
                 isLowerDigit, isLowerDigit] rest
  | _ => false

/-- `FreeNASISCSIDriver.create_volume_from_snapshot` as the trace of
backend calls it issues.  `gvn`/`gsn` are the absent name resolvers,
`cacheEnabled` is `self.configuration.safe_get('image_volume_cache_enabled')`,
`isService` is `common.is_service_project`. -/
def create_volume_from_snapshot (gvn gsn : String → FreenasVol)
    (cacheEnabled : Bool) (isService : String → Bool)
    (volume : VolumeRec) (snapshot : SnapRec) : List BCall :=
  let existing_vol := gvn snapshot.volume_name
  let freenas_snapshot := gsn snapshot.name
  let freenas_volume := gvn volume.name
  [.cloneFromSnap freenas_volume.name freenas_snapshot.name existing_vol.name,
   .createTarget freenas_volume.target freenas_volume.name] ++
  (if cacheEnabled && isService volume.project_id
      && imageCachePat volume.display_name
   then [.promote freenas_volume.name] else [])

/-- Whether a trace contains a promotion call. -/
def hasPromote (trace : List BCall) : Bool :=
  trace.any (fun c => match c with | .promote _ => true | _ => false)

/-- `FreeNASISCSIDriver.create_snapshot` as the trace of backend calls:
resolve snapshot and parent-volume names, then
`common.create_snapshot(snap_name, parent_name)`. -/
def create_snapshot (gvn gsn : String → FreenasVol)
    (snapshot : SnapRec) : List BCall :=
  [.createSnap (gsn snapshot.name).name (gvn snapshot.volume_name).name]

/-- `FreeNASISCSIDriver.create_cloned_volume`: build the transient
snapshot record `{'volume_name': src_vref['name'],
'name': f'name-\x7bvolume["id"]\x7d'}`, call `create_snapshot`, then
`create_volume_from_snapshot`; the `delete_snapshot` call is commented
out in the source. -/
def create_cloned_volume (gvn gsn : String → FreenasVol)
    (cacheEnabled : Bool) (isService : String → Bool)
    (volume src_vref : VolumeRec) : List BCall :=
  let temp_snapshot : SnapRec :=
    { volume_name := src_vref.name, name := "name-" ++ volume.id }
  create_snapshot gvn gsn temp_snapshot ++
  create_volume_from_snapshot gvn gsn cacheEnabled isService volume temp_snapshot

/-- `FreeNASISCSIDriver.extend_volume` as the trace of backend calls:
`common.extend_volume(name, new_size)` only when
`volume['size'] != new_size`. -/
def extend_volume (gvn : String → FreenasVol) (volume : VolumeRec)
    (new_size : Nat) : List BCall :=
  if volume.size ≠ new_size
  then [.extendVol (gvn volume.name).name new_size] else []

/-- Connection `properties` dict built by `initialize_connection`. -/
structure ConnProps where
  target_discovered : Bool
  target_portal : String
  target_iqn : String
  volume_id : String
deriving DecidableEq, Repr

/-- The `{'driver_volume_type': 'iscsi', 'data': properties}` result. -/
structure ConnInfo where
  driver_volume_type : String
  data : ConnProps
deriving DecidableEq, Repr

/-- The notification created via `cinder.message.api` on denied
admission, before the exception is raised. -/
structure Message where
  project_id : String
  resource_uuid : String
  action : String
  detail : String
  exceptionText : String
deriving DecidableEq, Repr

/-- The `FreeNASApiError` text raised (and attached to the notification)
when the lun/port limit is reached; the Python source uses in-string
line continuations, so the indentation spaces are part of the text. -/
def maxReachedText : String :=
  "Maximum lun/port limitation reached.             Change kern.cam.ctl.max_luns and kern.cam.ctl.max_ports in             tunable settings to allow more lun attachments."

/-- `pat` occurs as a contiguous sublist of `s`. -/
def listContainsSub (pat : List Char) : List Char → Bool
  | [] => pat.isEmpty
  | c :: rest => pat.isPrefixOf (c :: rest) || listContainsSub pat rest

/-- `pat` occurs as a substring of `s`. -/
def containsSub (s pat : String) : Bool :=
  listContainsSub pat.data s.data

/-- Modelled from the spec: `ix_utils.get_iscsi_portal` is absent from
the provided sources; per the spec's Connection Properties data model the
portal is `host:port`. -/
def get_iscsi_portal (hostname : String) (port : Nat) : String :=
  hostname ++ ":" ++ toString port

/-- `FreeNASISCSIDriver.initialize_connection`.  If `check_connection`
returns `False`, a notification message is created (scoped to the
volume's `project_id` and `id`) and the `FreeNASApiError` is raised —
modelled as `Except.error` carrying the message.  Otherwise the volume
name is resolved; if its backend name is empty, the snapshot resolution
is used instead, and the connection properties are returned. -/
def initialize_connection (versionPart : String) (tunables : List Tunable)
    (configLoaded : Bool) (attachedCount : Nat)
    (gvn gsn : String → FreenasVol)
    (hostname : String) (iscsiPort : Nat)
    (volume : VolumeRec) : Except Message ConnInfo :=
  if check_connection versionPart tunables configLoaded attachedCount = false then
    .error { project_id := volume.project_id,
             resource_uuid := volume.id,
             action := "ATTACH_VOLUME",
             detail := "ATTACH_ERROR",
             exceptionText := maxReachedText }
  else
    let fv0 := gvn volume.name
    let freenas_volume := if fv0.name = "" then gsn volume.name else fv0
    .ok { driver_volume_type := "iscsi",
          data := { target_discovered := false,
                    target_portal := get_iscsi_portal hostname iscsiPort,
                    target_iqn := freenas_volume.iqn,
                    volume_id := volume.id } }

/-- Whether an `initialize_connection` result returned connection
properties (as opposed to raising). -/
def isOkB : Except Message ConnInfo → Bool
  | .ok _ => true
  | .error _ => false

/-- Driver state relevant to `get_volume_stats`: the `self.stats` cache
(a dict, modelled as an association list); `__init__` sets it to `{}`. -/
structure DriverState where
  stats : List (String × String)
deriving DecidableEq, Repr

/-- The driver state right after `__init__` (`self.stats = {}`). -/
def initState : DriverState :=
  { stats := [] }

/-- `FreeNASISCSIDriver.get_volume_stats`: on `refresh` replace
`self.stats` with `common.update_volume_stats()` (`backend`), then
return `self.stats`.  Result: the new state and the returned snapshot. -/
def get_volume_stats (st : DriverState) (refresh : Bool)
    (backend : List (String × String)) : DriverState × List (String × String) :=
  let st1 := if refresh then { st with stats := backend } else st
  (st1, st1.stats)

/-- A concrete name resolver used for witnesses and counterexamples. -/
def gvn0 : String → FreenasVol :=
  fun n => { name := n, target := "t-" ++ n, iqn := "iqn-" ++ n }

/-- A concrete resolver whose resolutions all have empty backend names. -/
def gvnEmpty : String → FreenasVol :=
  fun _ => { name := "", target := "", iqn := "" }

/-- A concrete `is_service_project` that accepts every project. -/
def isService0 : String → Bool :=
  fun _ => true

/-- A concrete volume whose display name matches the image-cache
pattern and whose project is the service project. -/
def vol0 : VolumeRec :=
  { name := "volume-1", id := "1", project_id := "svc",
    display_name := "image-a-b-c-d-e", size := 1 }

/-- A concrete snapshot record. -/
def snap0 : SnapRec :=
  { name := "snapshot-1", volume_name := "volume-0" }

/-- Concrete tunables: `max_luns = 10`, `max_ports = 5`, both enabled. -/
def exTunables : List Tunable :=
  [{ var := "kern.cam.ctl.max_luns", enabled := true, value := "10" },
   { var := "kern.cam.ctl.max_ports", enabled := true, value := "5" }]

/-- The concrete connection info `initialize_connection` returns for
`vol0` with resolver `gvn0`, host `"host"` and iSCSI port 3260. -/
def connInfo0 : ConnInfo :=
  { driver_volume_type := "iscsi",
    data := { target_discovered := false,
              target_portal := "host:3260",
              target_iqn := "iqn-volume-1",
              volume_id := "1" } }

end IXsystems

namespace IXsystems

theorem tunableStep_eta (acc : Nat × Nat) (item : Tunable) :
    tunableStep acc item =
      ((if item.enabled && item.var == "kern.cam.ctl.max_luns"
            && isNumericStr item.value
        then digitsToNat item.value else acc.1),
       (if item.enabled && item.var == "kern.cam.ctl.max_ports"
            && isNumericStr item.value
        then digitsToNat item.value else acc.2)) := by
  by_cases h1 : (item.enabled && item.var == "kern.cam.ctl.max_luns"
      && isNumericStr item.value) = true <;>
  by_cases h2 : (item.enabled && item.var == "kern.cam.ctl.max_ports"
      && isNumericStr item.value) = true <;>
  simp [tunableStep, h1, h2]

theorem lunsPorts_decomp : ∀ (t : List Tunable) (a b : Nat),
    t.foldl tunableStep (a, b) =
      (lastTunable "kern.cam.ctl.max_luns" a t,
       lastTunable "kern.cam.ctl.max_ports" b t) := by
  intro t
  induction t with
  | nil => intro a b; rfl
  | cons hd tl ih =>
      intro a b
      simp only [List.foldl_cons, lastTunable] at *
      rw [tunableStep_eta]
      exact ih _ _

/-- C1: for every tunable list and attachment count (with a limit-enforcing
backend version and the cinder config loaded), `check_connection` computes
`max_luns` from the last enabled numeric `kern.cam.ctl.max_luns` tunable
(default 1024), `max_ports` likewise (default 256), and denies exactly when
the attachment count reaches `min max_luns max_ports`. -/
theorem check_connection_denies_at_limit (vp : String)
    (tunables : List Tunable) (n : Nat)
    (hvp : vp = "12.0" ∨ vp = "13.0") :
    maxLunsOf tunables = lastTunable "kern.cam.ctl.max_luns" 1024 tunables ∧
    maxPortsOf tunables = lastTunable "kern.cam.ctl.max_ports" 256 tunables ∧
    (check_connection vp tunables true n = false ↔
      min (maxLunsOf tunables) (maxPortsOf tunables) ≤ n) := by
  have hd := lunsPorts_decomp tunables 1024 256
  refine ⟨?_, ?_, ?_⟩
  · simp [maxLunsOf, lunsPortsOf, hd]
  · simp [maxPortsOf, lunsPortsOf, hd]
  · have hcond : (vp == "12.0" || vp == "13.0") = true := by
      rcases hvp with h | h <;> subst h <;> rfl
    simp only [check_connection, hcond, if_true, if_pos rfl]
    by_cases hle : min (lunsPortsOf tunables).1 (lunsPortsOf tunables).2 ≤ n
    · simp [maxLunsOf, maxPortsOf, hle]
    · simp [maxLunsOf, maxPortsOf, hle]

/-- Witness for C1: with enabled numeric tunables `max_luns=10` and
`max_ports=5`, `check_connection` denies at 5 attachments and allows
at 4. -/
theorem check_connection_denies_at_limit_witness :
    check_connection "12.0" exTunables true 5 = false ∧
    check_connection "12.0" exTunables true 4 = true :=
  ⟨(check_connection_denies_at_limit "12.0" exTunables 5
      (Or.inl rfl)).2.2.mpr (by decide),
   by decide⟩

/-- C7: for every backend version other than 12.0/13.0,
`check_connection` returns `true` whatever the tunables, the loaded
config and the attachment count. -/
theorem check_connection_version_noop (vp : String)
    (h12 : vp ≠ "12.0") (h13 : vp ≠ "13.0") :
    ∀ (tunables : List Tunable) (cfg : Bool) (n : Nat),
      check_connection vp tunables cfg n = true := by
  intro tunables cfg n
  have hcond : (vp == "12.0" || vp == "13.0") = false := by
    simp [h12, h13]
  simp [check_connection, hcond]

/-- Witness for C7: version 11.3 always allows. -/
theorem check_connection_version_noop_witness :
    check_connection "11.3" exTunables true 1000000 = true :=
  check_connection_version_noop "11.3" (by decide) (by decide)
    exTunables true 1000000

/-- C8: `extend_volume` issues the backend grow call exactly when the
new size differs from the volume's current size, and issues no backend
call at all when they are equal. -/
theorem extend_volume_grow_iff (gvn : String → FreenasVol)
    (volume : VolumeRec) (new_size : Nat) :
    extend_volume gvn volume new_size =
      (if volume.size = new_size then []
       else [.extendVol (gvn volume.name).name new_size]) := by
  simp [extend_volume, ite_not]

/-- C9: `get_volume_stats` with `refresh = false` returns the cached
snapshot unchanged and leaves the cache untouched (the cache is `[]`
right after `__init__`); with `refresh = true` the cache is replaced
wholesale by the backend snapshot, which is returned. -/
theorem get_volume_stats_cache (st : DriverState)
    (backend : List (String × String)) :
    get_volume_stats st false backend = (st, st.stats) ∧
    get_volume_stats st true backend = ({ stats := backend }, backend) ∧
    initState.stats = [] :=
  ⟨rfl, rfl, rfl⟩

/-- C2 (amended): `create_volume_from_snapshot` issues a promotion call
exactly when the `image_volume_cache_enabled` configuration flag is set
AND the volume's project is the service project AND the display name
matches the reserved image-cache pattern. -/
theorem create_volume_from_snapshot_promote_iff
    (gvn gsn : String → FreenasVol) (cacheEnabled : Bool)
    (isService : String → Bool) (volume : VolumeRec) (snapshot : SnapRec) :
    hasPromote (create_volume_from_snapshot gvn gsn cacheEnabled isService
      volume snapshot) =
      (cacheEnabled && isService volume.project_id
        && imageCachePat volume.display_name) := by
  by_cases h : (cacheEnabled && isService volume.project_id
      && imageCachePat volume.display_name) = true
  · simp [create_volume_from_snapshot, hasPromote, h]
  · simp only [Bool.not_eq_true] at h
    simp [create_volume_from_snapshot, hasPromote, h]

/-- C2 counterexample: with the image-volume-cache configuration flag
off, a service-project volume whose display name matches the reserved
pattern is NOT promoted, so promotion is not equivalent to
"service project AND pattern match" alone. -/
theorem create_volume_from_snapshot_promote_counterexample :
    isService0 vol0.project_id = true ∧
    imageCachePat vol0.display_name = true ∧
    hasPromote (create_volume_from_snapshot gvn0 gvn0 false isService0
      vol0 snap0) = false := by
  decide

/-- C4: `create_volume` provisions the storage object first and then
creates the export target; when target creation fails after storage
creation the error propagates and the trace contains no storage
deletion (no rollback). -/
theorem create_volume_no_rollback (gvn : String → FreenasVol)
    (volume : VolumeRec) (hsize : 0 < volume.size) :
    (create_volume gvn volume true true).1 =
      [.provision (gvn volume.name).name volume.size,
       .createTarget (gvn volume.name).target (gvn volume.name).name] ∧
    (create_volume gvn volume true true).2 = none ∧
    (create_volume gvn volume true false).1 =
      [.provision (gvn volume.name).name volume.size,
       .createTarget (gvn volume.name).target (gvn volume.name).name] ∧
    (create_volume gvn volume true false).2 = some "FreeNASApiError" ∧
    ∀ nm, BCall.deleteStorage nm ∉ (create_volume gvn volume true false).1 := by
  refine ⟨rfl, rfl, rfl, rfl, ?_⟩
  intro nm
  simp [create_volume]

/-- Witness for C4: a concrete volume of size 1 with failing target
creation propagates the backend error. -/
theorem create_volume_no_rollback_witness :
    0 < vol0.size ∧
    (create_volume gvn0 vol0 true false).2 = some "FreeNASApiError" :=
  ⟨by decide, (create_volume_no_rollback gvn0 vol0 (by decide)).2.2.2.1⟩

/-- C5: `create_cloned_volume` is exactly one transient snapshot
(named `name-` plus the new volume's id) against the source followed by
`create_volume_from_snapshot` on it, and the transient snapshot is
never deleted. -/
theorem create_cloned_volume_refines (gvn gsn : String → FreenasVol)
    (cacheEnabled : Bool) (isService : String → Bool)
    (volume src_vref : VolumeRec) :
    create_cloned_volume gvn gsn cacheEnabled isService volume src_vref =
      create_snapshot gvn gsn
        { volume_name := src_vref.name, name := "name-" ++ volume.id } ++
      create_volume_from_snapshot gvn gsn cacheEnabled isService volume
        { volume_name := src_vref.name, name := "name-" ++ volume.id } ∧
    ∀ s p, BCall.deleteSnap s p ∉
      create_cloned_volume gvn gsn cacheEnabled isService volume src_vref := by
  refine ⟨rfl, ?_⟩
  intro s p
  simp only [create_cloned_volume, create_snapshot,
    create_volume_from_snapshot]
  by_cases h : (cacheEnabled && isService volume.project_id
      && imageCachePat volume.display_name) = true
  · simp [h]
  · simp only [Bool.not_eq_true] at h
    simp [h]

/-- C3 (amended): when the admission check passes,
`initialize_connection` uses the snapshot resolution exactly when the
volume resolution's backend name is empty, and returns connection
properties in every case — even when neither resolution yields a
nonempty backend name, no error is raised. -/
theorem initialize_connection_snapshot_fallback (vp : String)
    (tunables : List Tunable) (cfg : Bool) (n : Nat)
    (gvn gsn : String → FreenasVol) (host : String) (port : Nat)
    (volume : VolumeRec)
    (hok : check_connection vp tunables cfg n = true) :
    initialize_connection vp tunables cfg n gvn gsn host port volume =
      Except.ok
        { driver_volume_type := "iscsi",
          data := { target_discovered := false,
                    target_portal := get_iscsi_portal host port,
                    target_iqn := (if (gvn volume.name).name = ""
                                   then gsn volume.name
                                   else gvn volume.name).iqn,
                    volume_id := volume.id } } := by
  simp [initialize_connection, hok]

/-- Witness for C3 (amended): a passing admission check on a concrete
volume returns the properties built from the volume resolution. -/
theorem initialize_connection_snapshot_fallback_witness :
    check_connection "11.3" [] true 0 = true ∧
    initialize_connection "11.3" [] true 0 gvn0 gvn0 "host" 3260 vol0 =
      Except.ok
        { driver_volume_type := "iscsi",
          data := { target_discovered := false,
                    target_portal := get_iscsi_portal "host" 3260,
                    target_iqn := (if (gvn0 vol0.name).name = ""
                                   then gvn0 vol0.name
                                   else gvn0 vol0.name).iqn,
                    volume_id := vol0.id } } :=
  ⟨by decide,
   initialize_connection_snapshot_fallback "11.3" [] true 0 gvn0 gvn0
     "host" 3260 vol0 (by decide)⟩

/-- C3 counterexample: when both the volume and the snapshot resolution
yield an empty backend name, `initialize_connection` still returns
connection properties; no ResolutionError-style failure occurs. -/
theorem initialize_connection_no_resolution_error :
    (gvnEmpty vol0.name).name = "" ∧
    isOkB (initialize_connection "12.0" [] true 0 gvnEmpty gvnEmpty
      "host" 3260 vol0) = true := by
  decide

/-- C6: on denied admission, `initialize_connection` produces the
notification message scoped to the volume's `project_id` and resource
id, whose exception text names both `kern.cam.ctl.max_luns` and
`kern.cam.ctl.max_ports`, and raises instead of returning connection
properties. -/
theorem initialize_connection_denied_notification (vp : String)
    (tunables : List Tunable) (cfg : Bool) (n : Nat)
    (gvn gsn : String → FreenasVol) (host : String) (port : Nat)
    (volume : VolumeRec)
    (hden : check_connection vp tunables cfg n = false) :
    initialize_connection vp tunables cfg n gvn gsn host port volume =
      Except.error
        { project_id := volume.project_id,
          resource_uuid := volume.id,
          action := "ATTACH_VOLUME",
          detail := "ATTACH_ERROR",
          exceptionText := maxReachedText } ∧
    containsSub maxReachedText "kern.cam.ctl.max_luns" = true ∧
    containsSub maxReachedText "kern.cam.ctl.max_ports" = true := by
  refine ⟨?_, by decide, by decide⟩
  simp [initialize_connection, hden]

/-- Witness for C6: with the limit-5 tunables and 5 attachments the
denial notification is produced for the concrete volume. -/
theorem initialize_connection_denied_notification_witness :
    initialize_connection "12.0" exTunables true 5 gvn0 gvn0
      "host" 3260 vol0 =
      Except.error
        { project_id := vol0.project_id,
          resource_uuid := vol0.id,
          action := "ATTACH_VOLUME",
          detail := "ATTACH_ERROR",
          exceptionText := maxReachedText } :=
  (initialize_connection_denied_notification "12.0" exTunables true 5
    gvn0 gvn0 "host" 3260 vol0 (by decide)).1

/-- C10: every successful `initialize_connection` result is
`{'driver_volume_type': 'iscsi', 'data': properties}` with
`target_discovered = False`, `volume_id` the input volume's id,
`target_portal` built from the configured hostname and iSCSI port, and
`target_iqn` the iqn of the resolved volume (or fallback snapshot)
record. -/
theorem initialize_connection_properties_shape (vp : String)
    (tunables : List Tunable) (cfg : Bool) (n : Nat)
    (gvn gsn : String → FreenasVol) (host : String) (port : Nat)
    (volume : VolumeRec) (info : ConnInfo)
    (h : initialize_connection vp tunables cfg n gvn gsn host port volume =
      Except.ok info) :
    info.driver_volume_type = "iscsi" ∧
    info.data.target_discovered = false ∧
    info.data.volume_id = volume.id ∧
    info.data.target_portal = get_iscsi_portal host port ∧
    info.data.target_iqn = (if (gvn volume.name).name = ""
                            then gsn volume.name
                            else gvn volume.name).iqn := by
  simp only [initialize_connection] at h
  split at h
  · exact absurd h (by simp)
  · injection h with h2
    subst h2
    exact ⟨rfl, rfl, rfl, rfl, rfl⟩

/-- Witness for C10: the concrete successful connection info for `vol0`
has the required shape. -/
theorem initialize_connection_properties_shape_witness :
    connInfo0.driver_volume_type = "iscsi" ∧
    connInfo0.data.target_discovered = false ∧
    connInfo0.data.volume_id = vol0.id ∧
    connInfo0.data.target_portal = get_iscsi_portal "host" 3260 ∧
    connInfo0.data.target_iqn = (if (gvn0 vol0.name).name = ""
                                 then gvn0 vol0.name
                                 else gvn0 vol0.name).iqn :=
  initialize_connection_properties_shape "11.3" [] true 0 gvn0 gvn0
    "host" 3260 vol0 connInfo0 rfl

end IXsystems
